import Mathlib

/-!
Verification of the pet-grooming conversation-workflow engine
(`workflow_state.py`, `workflow_nodes.py`, `service_integrator.py`).

Shallow embedding conventions:

* `ConversationState` mirrors the pydantic model in `workflow_state.py`
  field by field.  Optional pydantic fields become `Option _`; Python
  floats that the claims only compare against `0` become `Rat`;
  ISO-format timestamps become `Nat` seconds (the code only stores the
  current time and compares differences of timestamps).
* Python truthiness (`if not getattr(self, field)`) is embedded by the
  `truthy*` helpers: `None`, the empty string, `0` and `0.0` are falsy.
* The pydantic model is declared without `validate_assignment` and with
  the default `extra` policy, so plain attribute assignment to a
  *declared* field stores any value unchecked, while assignment to an
  undeclared attribute raises `ValueError` and reading an undeclared
  attribute raises `AttributeError`.  `workflow_nodes.py` moreover never
  imports `datetime` nor `service_integrator`, so evaluating those names
  raises `NameError`.  Handlers that can raise are embedded as
  `PyResult`, whose `raised` constructor carries the state as mutated up
  to the raise (Python mutates the state object in place).
* External collaborators (the LLM call, the calendar) are parameters of
  the embedded handlers: the LLM classification/extraction result is an
  `Except` value, the calendar result a `Bool × String`.
-/

/-- One entry of `conversation_history` (`workflow_state.py`,
`add_message`): a `{role, content, timestamp}` record. -/
structure ChatMessage where
  role : String
  content : String
  timestamp : Nat
deriving DecidableEq, Repr

/-- The per-thread state, mirroring the pydantic `ConversationState` of
`workflow_state.py` lines 11-53.  `available_services`, `brand_info`,
`appointment_date`, `appointment_time` and `total_price` are *not*
fields of the pydantic model (the source references them anyway; see the
`PyResult.raised` branches of the embedded handlers). -/
structure ConversationState where
  lead_id : String
  discord_user_id : String
  pet_id : Option String := none
  service_id : Option String := none
  appointment_id : Option String := none
  status : String := "initiated"
  customer_name : Option String := none
  phone : Option String := none
  city : Option String := none
  created_at_iso : String := ""
  source : String := "discord"
  pet_name : Option String := none
  species : Option String := none
  breed : Option String := none
  weight_kg : Option Rat := none
  age_years : Option Int := none
  coat_condition : Option String := none
  pet_notes : Option String := none
  last_message : String := ""
  conversation_history : List ChatMessage := []
  attempts_count : Nat := 0
  last_activity : Nat := 0
  response : String := ""
deriving DecidableEq, Repr

/-- Python truthiness of an optional string: `None` and `""` are falsy. -/
def truthyS : Option String → Bool
  | none => false
  | some s => s != ""

/-- Python truthiness of an optional float: `None` and `0.0` are falsy. -/
def truthyQ : Option Rat → Bool
  | none => false
  | some x => x != 0

/-- Python truthiness of an optional int: `None` and `0` are falsy. -/
def truthyZ : Option Int → Bool
  | none => false
  | some n => n != 0

namespace ConversationState

/-- `workflow_state.py` `add_message`: append a `{role, content,
timestamp}` entry, set `last_message` and refresh `last_activity`. -/
def add_message (s : ConversationState) (role content : String) (now : Nat) :
    ConversationState :=
  { s with
    conversation_history :=
      s.conversation_history ++ [⟨role, content, now⟩]
    last_message := content
    last_activity := now }

/-- `workflow_state.py` `update_status`: set `status` (no validation:
pydantic assignment validation is off, so any string is stored) and
refresh `last_activity`. -/
def update_status (s : ConversationState) (new_status : String) (now : Nat) :
    ConversationState :=
  { s with status := new_status, last_activity := now }

/-- `workflow_state.py` `get_missing_lead_fields`: the required lead
fields (`customer_name`, `phone`) whose current value is Python-falsy,
in declaration order. -/
def get_missing_lead_fields (s : ConversationState) : List String :=
  (if truthyS s.customer_name then [] else ["customer_name"]) ++
  (if truthyS s.phone then [] else ["phone"])

/-- `workflow_state.py` `get_missing_pet_fields`: the required pet
fields (`pet_name`, `species`, `breed`, `weight_kg`, `age_years`) whose
current value is Python-falsy, in declaration order. -/
def get_missing_pet_fields (s : ConversationState) : List String :=
  (if truthyS s.pet_name then [] else ["pet_name"]) ++
  (if truthyS s.species then [] else ["species"]) ++
  (if truthyS s.breed then [] else ["breed"]) ++
  (if truthyQ s.weight_kg then [] else ["weight_kg"]) ++
  (if truthyZ s.age_years then [] else ["age_years"])

/-- `workflow_state.py` `is_qualified`: both missing-field lists are
empty. -/
def is_qualified (s : ConversationState) : Bool :=
  (s.get_missing_lead_fields.length == 0) &&
  (s.get_missing_pet_fields.length == 0)

end ConversationState

/-- Result of running a handler on a Python object that is mutated in
place: either a normal return, or an escaped exception together with the
state as mutated up to the raise. -/
inductive PyResult where
  | ok (s : ConversationState)
  | raised (msg : String) (s : ConversationState)
deriving DecidableEq, Repr

/-- The state carried by a `PyResult` (the in-place-mutated object,
whether or not an exception escaped). -/
def PyResult.stateOf : PyResult → ConversationState
  | .ok s => s
  | .raised _ s => s

/-- The eleven status values enumerated by the specification. -/
def statusEnum : List String :=
  ["initiated", "onboarded", "qualifying", "collecting_details",
   "qualified", "showing_services", "booking_appointment", "booked",
   "stalled", "completed", "cancelled"]

/-- The seven stage identifiers the specification fixes for the
intent-classification step. -/
def sevenStages : List String :=
  ["qualify_lead", "collect_details", "show_services",
   "book_appointment", "provide_brand_info", "follow_up",
   "generate_response"]

/-- The structured record the extraction prompt of
`collect_details_node` requests (`workflow_nodes.py` lines 87-103): the
nine optional fields, `null`/absent meaning "not determinable".  The
source merge loop would copy *any* JSON key naming a declared state
attribute; this embedding models the schema the prompt fixes. -/
structure ExtractedData where
  customer_name : Option String := none
  phone : Option String := none
  city : Option String := none
  pet_name : Option String := none
  species : Option String := none
  breed : Option String := none
  weight_kg : Option Rat := none
  age_years : Option Int := none
  coat_condition : Option String := none
deriving DecidableEq, Repr

/-- One step of the merge loop of `collect_details_node`
(`workflow_nodes.py` lines 117-119): `setattr` only when the extracted
value is not `None`. -/
def mergeField {α : Type} (old new : Option α) : Option α :=
  match new with
  | some v => some v
  | none => old

/-- The whole merge loop of `collect_details_node` (`workflow_nodes.py`
lines 117-119) applied to the nine schema fields: each field present and
non-null in `d` overwrites the state field, every other state field is
left untouched. -/
def mergeExtracted (s : ConversationState) (d : ExtractedData) :
    ConversationState :=
  { s with
    customer_name := mergeField s.customer_name d.customer_name
    phone := mergeField s.phone d.phone
    city := mergeField s.city d.city
    pet_name := mergeField s.pet_name d.pet_name
    species := mergeField s.species d.species
    breed := mergeField s.breed d.breed
    weight_kg := mergeField s.weight_kg d.weight_kg
    age_years := mergeField s.age_years d.age_years
    coat_condition := mergeField s.coat_condition d.coat_condition }

/-- Python `str.lower()` on the reply text: lowercase every character
(character-wise, so that concrete replies evaluate). -/
def pyLower (s : String) : String := String.mk (s.data.map Char.toLower)

namespace WorkflowNodes

/-- `classify_intent_node` (`workflow_nodes.py` lines 31-53).  The LLM
call is the parameter: `Except.error` when `chat_model.invoke` raises
(there is no `try` in the source, so the exception propagates),
`Except.ok content` otherwise.  The route is
`"provide_brand_info"` exactly when the lowercased reply equals
`"brand_information"`, and `"qualify_lead"` for every other reply. -/
def classify_intent_node (llmResponse : Except String String) :
    Except String String :=
  match llmResponse with
  | .error e => .error e
  | .ok content =>
      .ok (if pyLower content == "brand_information"
           then "provide_brand_info" else "qualify_lead")

/-- `qualify_lead_node` (`workflow_nodes.py` lines 55-78).  Returned
alongside the state is the list of record-store writes the handler
performs: it is always empty, because the only candidate call,
`service_integrator.create_lead_record(state)` at line 63, is commented
out in the source (`success = True` is assigned instead, and a creation
log line is emitted without any store access). -/
def qualify_lead_node (now : Nat) (s : ConversationState) :
    ConversationState × List String :=
  let writes : List String := []
  let s1 := s.update_status "qualifying" now
  if !(s1.get_missing_lead_fields.isEmpty) ||
     !(s1.get_missing_pet_fields.isEmpty) then
    (s1.update_status "collecting_details" now, writes)
  else
    (s1, writes)

/-- `collect_details_node` (`workflow_nodes.py` lines 80-135).
`extraction` is the combined outcome of the `chat_model.invoke` call and
`json.loads` of its reply: `Except.error` when either raises (the
source wraps both in `try`/`except` and logs, merging nothing), `.ok d`
when a schema record was parsed.  If the merged state is qualified the
source then sets status `"qualified"` and calls
`service_integrator.update_lead_record(state)` at line 130 —
`service_integrator` is never imported by `workflow_nodes.py`, so that
call raises `NameError` and the exception escapes the handler. -/
def collect_details_node (extraction : Except Unit ExtractedData)
    (now : Nat) (s : ConversationState) : PyResult :=
  let s1 := match extraction with
    | .ok d => mergeExtracted s d
    | .error _ => s
  if s1.is_qualified then
    .raised "NameError: name service_integrator is not defined"
      (s1.update_status "qualified" now)
  else
    .ok s1

/-- `show_services_node` (`workflow_nodes.py` lines 137-152).  Its first
statement, `services = service_integrator.get_available_services()` at
line 144, evaluates `service_integrator`, which `workflow_nodes.py`
never imports: every invocation raises `NameError` before any state
mutation.  (Had it proceeded, line 147 `state.available_services =
services` would raise `ValueError`, `available_services` not being a
declared field of the pydantic model.) -/
def show_services_node (s : ConversationState) : PyResult :=
  .raised "NameError: name service_integrator is not defined" s

/-- `book_appointment_node` (`workflow_nodes.py` lines 154-165):
unconditionally sets status `"booking_appointment"`. -/
def book_appointment_node (now : Nat) (s : ConversationState) :
    ConversationState :=
  s.update_status "booking_appointment" now

/-- `provide_brand_info_node` (`workflow_nodes.py` lines 167-187):
fetches brand records, generates an answer with the LLM (the generated
text is the parameter) and returns `Command(update={"response": ...},
goto=END)` — only the `response` field changes, never `status`. -/
def provide_brand_info_node (llmText : String) (s : ConversationState) :
    ConversationState :=
  { s with response := llmText }

/-- `follow_up_node` (`workflow_nodes.py` lines 189-202).  Its first
statement after the log, `last_activity =
datetime.fromisoformat(state.last_activity)` at line 196, evaluates
`datetime`, which `workflow_nodes.py` never imports: every invocation
raises `NameError` before the one-hour comparison or any status
update. -/
def follow_up_node (s : ConversationState) : PyResult :=
  .raised "NameError: name datetime is not defined" s

end WorkflowNodes

namespace WorkflowNodes

/-- Python string interpolation of an optional value: `None` renders as
the string `"None"`. -/
def pyStr (o : Option String) : String :=
  match o with
  | none => "None"
  | some s => s

/-- `_generate_qualifying_response` (`workflow_nodes.py` lines 229-235):
a constant template (the source bytes contain mojibake-encoded emoji and
bullets, reproduced verbatim). -/
def generate_qualifying_response : String :=
  "Hi there! ðŸ¾ Welcome to our pet grooming service! " ++
  "I\u0027d love to help you get your furry friend looking their best. " ++
  "To get started, could you please tell me:\n\n" ++
  "â€¢ Your name and phone number\n" ++
  "â€¢ Your pet\u0027s name, breed, and approximate weight\n" ++
  "â€¢ Your pet\u0027s age and current coat condition"

/-- `_generate_collection_response` (`workflow_nodes.py` lines 237-265).
The item list checks `customer_name`, `phone`, `pet_name`, `breed`,
`weight_kg` and `age_years` against the missing-field lists — it never
checks `species`, although `get_missing_pet_fields` reports it as a
required field. -/
def generate_collection_response (s : ConversationState) : String :=
  let missing_lead := s.get_missing_lead_fields
  let missing_pet := s.get_missing_pet_fields
  let missing_items : List String :=
    (if missing_lead.contains "customer_name" then ["your name"] else []) ++
    (if missing_lead.contains "phone" then ["your phone number"] else []) ++
    (if missing_pet.contains "pet_name" then ["your pet\u0027s name"] else []) ++
    (if missing_pet.contains "breed" then ["your pet\u0027s breed"] else []) ++
    (if missing_pet.contains "weight_kg" then ["your pet\u0027s weight"] else []) ++
    (if missing_pet.contains "age_years" then ["your pet\u0027s age"] else [])
  if missing_items.isEmpty then
    "Perfect! I have all the information I need. Let me show you our available services."
  else
    let items_text :=
      if missing_items.length > 1 then
        String.intercalate ", " missing_items.dropLast ++
          " and " ++ missing_items.getLastD ""
      else
        missing_items.headD ""
    "Thanks for that information! I still need " ++ items_text ++
      " to help you better. Could you provide that?"

/-- `_generate_qualified_response` (`workflow_nodes.py` lines 267-271):
an f-string over `customer_name`, `pet_name` and `breed`. -/
def generate_qualified_response (s : ConversationState) : String :=
  "Wonderful! I have all your details, " ++ pyStr s.customer_name ++
  ". " ++ pyStr s.pet_name ++ " sounds like a lovely " ++
  pyStr s.breed ++ "! Let me show you our available services and pricing."

/-- `_generate_booking_response` (`workflow_nodes.py` lines 297-301):
a constant template. -/
def generate_booking_response : String :=
  "Great choice! Let me check our available time slots. " ++
  "What days work best for you this week or next? " ++
  "I can check morning (9 AM - 12 PM) or afternoon (1 PM - 5 PM) slots."

/-- `_generate_confirmation_response` (`workflow_nodes.py` lines
303-307): an f-string over `pet_name`. -/
def generate_confirmation_response (s : ConversationState) : String :=
  "Perfect! Your appointment has been booked for " ++ pyStr s.pet_name ++
  ". You\u0027ll receive a confirmation with all the details. " ++
  "Is there anything else I can help you with today?"

/-- `generate_response_node` (`workflow_nodes.py` lines 204-227):
dispatch on `status`, then `state.add_message("assistant", response)`.
Two branches raise while *computing* the response, before any state
mutation: the `"showing_services"` branch reads
`state.available_services` (line 275), not a declared field of the
pydantic model, raising `AttributeError`; the fallback branch reads
`state.brand_info` (line 315), likewise undeclared. -/
def generate_response_node (now : Nat) (s : ConversationState) : PyResult :=
  if s.status == "qualifying" then
    .ok (s.add_message "assistant" generate_qualifying_response now)
  else if s.status == "collecting_details" then
    .ok (s.add_message "assistant" (generate_collection_response s) now)
  else if s.status == "qualified" then
    .ok (s.add_message "assistant" (generate_qualified_response s) now)
  else if s.status == "showing_services" then
    .raised "AttributeError: ConversationState object has no attribute available_services" s
  else if s.status == "booking_appointment" then
    .ok (s.add_message "assistant" generate_booking_response now)
  else if s.status == "booked" then
    .ok (s.add_message "assistant" (generate_confirmation_response s) now)
  else
    .raised "AttributeError: ConversationState object has no attribute brand_info" s

end WorkflowNodes

namespace ServiceIntegrator

/-- `create_appointment` (`service_integrator.py` lines 160-213).
Parameters stand for the externals: `calendarOk`/`eventId` are the
result of `calendar_service.create_appointment`, `apptId` the randomly
generated `"APT" + 6 chars` identifier, `svcId` the value of
`service_info.get` of `service_id` with an empty-string default.  On calendar success the source
assigns `state.appointment_id` (line 187, a declared field — the
assignment sticks, with no once-only guard) and `state.service_id`
(line 188), then at line 189 assigns `state.appointment_date`, which is
*not* a declared field of the pydantic model: the assignment raises
`ValueError`, its own `except` catches it and returns
`(False, str(e))` — so `update_status("booked")` at line 199 is never
reached on any path.  On calendar failure nothing is mutated. -/
def create_appointment (calendarOk : Bool) (eventId : String)
    (apptId : String) (svcId : String) (s : ConversationState) :
    (Bool × String) × ConversationState :=
  if calendarOk then
    let s1 := { s with
      appointment_id := some apptId
      service_id := some svcId }
    ((false, "ValueError: ConversationState object has no field appointment_date"), s1)
  else
    ((false, eventId), s)

end ServiceIntegrator

/-- A fully populated state (the running example: every required lead
and pet field set, status `"collecting_details"`). -/
def janeFull : ConversationState :=
  { lead_id := "thread-1"
    discord_user_id := "user-1"
    pet_id := some "PETABC123"
    status := "collecting_details"
    customer_name := some "Jane"
    phone := some "555-1212"
    pet_name := some "Rex"
    species := some "Dog"
    breed := some "Labrador"
    weight_kg := some 20
    age_years := some 3
    last_message := "hi"
    last_activity := 100 }

/-- Modelled from the spec: the §4.4 transition table as a relation on
status values, for comparison with the handlers of the code.  An edge is
allowed when it is a self-loop ("remains"/"unchanged" rows) or one of
the explicit moves of the table: `qualify_lead` from `initiated` to
`qualifying` or `collecting_details`; `collect_details` from
`qualifying`/`collecting_details` to `qualified` (else remaining in
`collecting_details`); `show_services` from `qualified` to
`showing_services`; `book_appointment` from `showing_services` to
`booking_appointment`; `follow_up` from any active, non-terminal status
to `stalled` (`booked`, `completed` and `cancelled` being protected per
the claim). -/
def spec44_allows (src dst : String) : Bool :=
  src == dst ||
  [("initiated", "qualifying"), ("initiated", "collecting_details"),
   ("qualifying", "qualified"), ("qualifying", "collecting_details"),
   ("collecting_details", "qualified"),
   ("qualified", "showing_services"),
   ("showing_services", "booking_appointment"),
   ("booking_appointment", "booked"),
   ("initiated", "stalled"), ("onboarded", "stalled"),
   ("qualifying", "stalled"), ("collecting_details", "stalled"),
   ("qualified", "stalled"), ("showing_services", "stalled"),
   ("booking_appointment", "stalled")].contains (src, dst)

/-- The status field of `mergeExtracted` is the input status (the merge
loop only touches the nine extraction-schema fields). -/
theorem mergeExtracted_status (s : ConversationState) (d : ExtractedData) :
    (mergeExtracted s d).status = s.status := rfl

/-- C1 (counterexample): the claim says no handler regresses a booked
state back into the funnel, but `qualify_lead_node` never inspects the
source status: run on a fully populated state with status `"booked"` it
moves the status to `"qualifying"` — an edge the §4.4 table does not
contain. -/
theorem C1_booked_regression :
    (WorkflowNodes.qualify_lead_node 200
      { janeFull with status := "booked" }).1.status = "qualifying" ∧
    spec44_allows "booked" "qualifying" = false := by
  exact ⟨rfl, by decide⟩

/-- C1 (amended): under every handler invocation the status stays inside
the enumerated eleven-value set — the handlers only ever write
`qualifying`, `collecting_details`, `qualified`, `booking_appointment`
or leave the status unchanged — but they do not restrict themselves to
§4.4 edges, since none of them inspects the source status. -/
theorem C1_status_closure (now : Nat) (extraction : Except Unit ExtractedData)
    (llmText : String) (s : ConversationState)
    (h : statusEnum.contains s.status = true) :
    statusEnum.contains (WorkflowNodes.qualify_lead_node now s).1.status = true ∧
    statusEnum.contains (WorkflowNodes.collect_details_node extraction now s).stateOf.status = true ∧
    statusEnum.contains (WorkflowNodes.show_services_node s).stateOf.status = true ∧
    statusEnum.contains (WorkflowNodes.book_appointment_node now s).status = true ∧
    statusEnum.contains (WorkflowNodes.follow_up_node s).stateOf.status = true ∧
    statusEnum.contains (WorkflowNodes.generate_response_node now s).stateOf.status = true ∧
    statusEnum.contains (WorkflowNodes.provide_brand_info_node llmText s).status = true := by
  refine ⟨?_, ?_, ?_, ?_, ?_, ?_, ?_⟩
  · simp only [WorkflowNodes.qualify_lead_node]
    split <;> rfl
  · rcases extraction with e | d <;>
      simp only [WorkflowNodes.collect_details_node] <;> split <;>
      first
        | rfl
        | simpa [PyResult.stateOf, mergeExtracted_status] using h
  · exact h
  · rfl
  · exact h
  · unfold WorkflowNodes.generate_response_node
    split_ifs <;> exact h
  · exact h

/-- C1 (witness): the closure theorem applied to the running example
state. -/
theorem C1_status_closure_witness :
    statusEnum.contains
      (WorkflowNodes.qualify_lead_node 7 janeFull).1.status = true :=
  (C1_status_closure 7 (Except.error ()) "info" janeFull (by decide)).1

/-- The stage identifier a classification result routes to (the target
of the returned `Command`), `""` when the call raised. -/
def routeOf (r : Except String String) : String :=
  match r with
  | .ok v => v
  | .error _ => ""

/-- C2 (counterexample): the claim says an unrecognized classification
label routes to `generate_response` and a thrown call fails safe there
too; in the code an unrecognized label (here `"garbage"`) routes to
`qualify_lead`, and an error in the call propagates out of the node
unhandled instead of being routed at all. -/
theorem C2_garbage_routes_to_qualify_lead :
    WorkflowNodes.classify_intent_node (Except.ok "garbage") =
      Except.ok "qualify_lead" ∧
    (Except.ok "qualify_lead" : Except String String) ≠
      Except.ok "generate_response" ∧
    WorkflowNodes.classify_intent_node (Except.error "timeout") =
      Except.error "timeout" := by
  refine ⟨?_, ?_, rfl⟩
  · simp [WorkflowNodes.classify_intent_node]
    decide
  · intro hcontra
    exact absurd (Except.ok.inj hcontra) (by decide)

/-- C2 (amended): whenever the underlying classification call succeeds,
the step returns one of the fixed stage identifiers — in fact always
`provide_brand_info` (reply lowercasing to `brand_information`) or
`qualify_lead` (every other reply, unrecognized ones included) — and
whenever the call fails the error propagates unhandled rather than
routing to `generate_response`. -/
theorem C2_route_always_in_stage_set (c e : String) :
    sevenStages.contains
      (routeOf (WorkflowNodes.classify_intent_node (Except.ok c))) = true ∧
    WorkflowNodes.classify_intent_node (Except.error e) =
      Except.error e := by
  constructor
  · simp only [WorkflowNodes.classify_intent_node, routeOf]
    split <;> rfl
  · rfl

/-- Per-field behaviour of one merge-loop step: a `null` extracted value
leaves the state value, a non-null one overwrites it, and the merged
value can only be `None` when the state value already was. -/
theorem mergeField_spec {α : Type} (o n : Option α) :
    (n = none → mergeField o n = o) ∧
    (n.isSome = true → mergeField o n = n) ∧
    ((mergeField o n).isNone = true → o.isNone = true) := by
  cases n <;> simp [mergeField]

/-- C3 (confirmed): merging a partial extraction result overwrites
exactly the fields that are present and non-null in the result; every
field that is absent or null keeps its previous value, a previously
non-null field is never set back to null, and fields outside the
extraction schema (`status`, identifiers, the conversation log,
`pet_notes`) are never touched. -/
theorem C3_merge_policy (s : ConversationState) (d : ExtractedData) :
    ((mergeExtracted s d).status = s.status ∧
     (mergeExtracted s d).lead_id = s.lead_id ∧
     (mergeExtracted s d).appointment_id = s.appointment_id ∧
     (mergeExtracted s d).conversation_history = s.conversation_history ∧
     (mergeExtracted s d).pet_notes = s.pet_notes) ∧
    ((d.customer_name = none →
        (mergeExtracted s d).customer_name = s.customer_name) ∧
     (d.customer_name.isSome = true →
        (mergeExtracted s d).customer_name = d.customer_name) ∧
     ((mergeExtracted s d).customer_name.isNone = true →
        s.customer_name.isNone = true)) ∧
    ((d.phone = none → (mergeExtracted s d).phone = s.phone) ∧
     (d.phone.isSome = true → (mergeExtracted s d).phone = d.phone) ∧
     ((mergeExtracted s d).phone.isNone = true → s.phone.isNone = true)) ∧
    ((d.city = none → (mergeExtracted s d).city = s.city) ∧
     (d.city.isSome = true → (mergeExtracted s d).city = d.city) ∧
     ((mergeExtracted s d).city.isNone = true → s.city.isNone = true)) ∧
    ((d.pet_name = none → (mergeExtracted s d).pet_name = s.pet_name) ∧
     (d.pet_name.isSome = true →
        (mergeExtracted s d).pet_name = d.pet_name) ∧
     ((mergeExtracted s d).pet_name.isNone = true →
        s.pet_name.isNone = true)) ∧
    ((d.species = none → (mergeExtracted s d).species = s.species) ∧
     (d.species.isSome = true → (mergeExtracted s d).species = d.species) ∧
     ((mergeExtracted s d).species.isNone = true →
        s.species.isNone = true)) ∧
    ((d.breed = none → (mergeExtracted s d).breed = s.breed) ∧
     (d.breed.isSome = true → (mergeExtracted s d).breed = d.breed) ∧
     ((mergeExtracted s d).breed.isNone = true → s.breed.isNone = true)) ∧
    ((d.weight_kg = none → (mergeExtracted s d).weight_kg = s.weight_kg) ∧
     (d.weight_kg.isSome = true →
        (mergeExtracted s d).weight_kg = d.weight_kg) ∧
     ((mergeExtracted s d).weight_kg.isNone = true →
        s.weight_kg.isNone = true)) ∧
    ((d.age_years = none → (mergeExtracted s d).age_years = s.age_years) ∧
     (d.age_years.isSome = true →
        (mergeExtracted s d).age_years = d.age_years) ∧
     ((mergeExtracted s d).age_years.isNone = true →
        s.age_years.isNone = true)) ∧
    ((d.coat_condition = none →
        (mergeExtracted s d).coat_condition = s.coat_condition) ∧
     (d.coat_condition.isSome = true →
        (mergeExtracted s d).coat_condition = d.coat_condition) ∧
     ((mergeExtracted s d).coat_condition.isNone = true →
        s.coat_condition.isNone = true)) :=
  ⟨⟨rfl, rfl, rfl, rfl, rfl⟩,
   mergeField_spec s.customer_name d.customer_name,
   mergeField_spec s.phone d.phone,
   mergeField_spec s.city d.city,
   mergeField_spec s.pet_name d.pet_name,
   mergeField_spec s.species d.species,
   mergeField_spec s.breed d.breed,
   mergeField_spec s.weight_kg d.weight_kg,
   mergeField_spec s.age_years d.age_years,
   mergeField_spec s.coat_condition d.coat_condition⟩

/-- A partial extraction result carrying only `age_years` (spec
Scenario B: the pet is 3 years old). -/
def extractedAge : ExtractedData := { age_years := some 3 }

/-- C3 (witness): the merge-policy theorem applied to the running
example and the age-only extraction: `pet_name`, absent from the
result, keeps its value, while `age_years`, present and non-null, is
overwritten. -/
theorem C3_merge_policy_witness :
    (mergeExtracted janeFull extractedAge).pet_name = janeFull.pet_name ∧
    (mergeExtracted janeFull extractedAge).age_years =
      extractedAge.age_years :=
  ⟨(C3_merge_policy janeFull extractedAge).2.2.2.2.1.1 rfl,
   (C3_merge_policy janeFull extractedAge).2.2.2.2.2.2.2.2.1.2.1 rfl⟩

/-- The running example with the pet species still unknown: every other
required lead and pet field is populated. -/
def janeNoSpecies : ConversationState := { janeFull with species := none }

/-- C4 (code_bug): `species` is a required pet field
(`get_missing_pet_fields` reports it and the state is not qualified),
yet `_generate_collection_response` never checks it when assembling the
missing-items sentence: with only `species` missing the reply is the
"I have all the information I need" message, naming no missing field at
all — the claim (and §4.3 of the spec) requires every currently-missing
required field to be named. -/
theorem C4_species_not_named :
    janeNoSpecies.get_missing_pet_fields = ["species"] ∧
    janeNoSpecies.is_qualified = false ∧
    WorkflowNodes.generate_collection_response janeNoSpecies =
      "Perfect! I have all the information I need. Let me show you our available services." := by
  exact ⟨rfl, rfl, rfl⟩

/-- C5 (code_bug): when the extraction call fails, the `except` of
`collect_details_node` does catch it and zero fields are merged; but on
a state that is (already) qualified the handler then reaches
`service_integrator.update_lead_record(state)` — `service_integrator`
is never imported by `workflow_nodes.py` — so the turn aborts with a
`NameError` (after `update_status("qualified")` has run).  On a
not-yet-qualified state the turn indeed proceeds, with the state
returned exactly as it was. -/
theorem C5_extraction_error_aborts_when_qualified :
    WorkflowNodes.collect_details_node (Except.error ()) 200 janeFull =
      PyResult.raised "NameError: name service_integrator is not defined"
        { janeFull with status := "qualified", last_activity := 200 } ∧
    WorkflowNodes.collect_details_node (Except.error ()) 200
        { janeFull with phone := none } =
      PyResult.ok { janeFull with phone := none } := by
  exact ⟨rfl, rfl⟩

/-- A fresh thread after the first message of spec Scenario A: lead fields
captured, status still `"initiated"`, every pet field missing. -/
def janeInitiated : ConversationState :=
  { lead_id := "thread-2"
    discord_user_id := "user-2"
    status := "initiated"
    customer_name := some "Jane"
    phone := some "555-1212"
    last_message := "Hi, my name is Jane, phone 555-1212" }

/-- C6 (counterexample): the claim says `qualify_lead` creates the lead
record in the record store if absent; the handler performs no
record-store write at all (the `create_lead_record` call at
`workflow_nodes.py` line 63 is commented out — `success = True` is
assigned and a creation log line emitted instead), so on a fresh
initiated state its write list is empty. -/
theorem C6_no_store_write :
    (WorkflowNodes.qualify_lead_node 10 janeInitiated).2 = [] ∧
    (WorkflowNodes.qualify_lead_node 10 janeInitiated).1.status =
      "collecting_details" ∧
    janeInitiated.status = "initiated" := by
  exact ⟨rfl, rfl, rfl⟩

/-- The missing-field lists only read the fact fields, so a status
update leaves them unchanged. -/
theorem missing_lead_update_status (s : ConversationState) (x : String)
    (n : Nat) :
    (s.update_status x n).get_missing_lead_fields =
      s.get_missing_lead_fields := rfl

/-- The missing-pet list is likewise unchanged by a status update. -/
theorem missing_pet_update_status (s : ConversationState) (x : String)
    (n : Nat) :
    (s.update_status x n).get_missing_pet_fields =
      s.get_missing_pet_fields := rfl

/-- C6 (amended): running `qualify_lead` on a state with status
`initiated` performs no record-store write (lead insertion instead
happens in `WorkflowManager.get_or_create_state` when the thread is
first seen) and leaves the state with status `collecting_details` if
any required lead or pet field is missing, and `qualifying`
otherwise. -/
theorem C6_qualify_lead_effect (now : Nat) (s : ConversationState)
    (h : s.status = "initiated") :
    (WorkflowNodes.qualify_lead_node now s).2 = [] ∧
    (WorkflowNodes.qualify_lead_node now s).1.status =
      (if !s.get_missing_lead_fields.isEmpty ||
          !s.get_missing_pet_fields.isEmpty
       then "collecting_details" else "qualifying") := by
  constructor
  · simp only [WorkflowNodes.qualify_lead_node]
    split <;> rfl
  · simp only [WorkflowNodes.qualify_lead_node,
      missing_lead_update_status, missing_pet_update_status]
    split <;> rfl

/-- C6 (witness): the amended theorem applied to the Scenario A state,
whose pet fields are all missing. -/
theorem C6_qualify_lead_effect_witness :
    (WorkflowNodes.qualify_lead_node 10 janeInitiated).1.status =
      (if !janeInitiated.get_missing_lead_fields.isEmpty ||
          !janeInitiated.get_missing_pet_fields.isEmpty
       then "collecting_details" else "qualifying") :=
  (C6_qualify_lead_effect 10 janeInitiated rfl).2

/-- The example state mid-booking (status `"booking_appointment"`). -/
def bookingState : ConversationState :=
  { janeFull with status := "booking_appointment" }

/-- The state `create_appointment` leaves behind on a calendar success:
`appointment_id` and `service_id` assigned, status untouched. -/
def apptAssigned : ConversationState :=
  { bookingState with
    appointment_id := some "APT42XYZ"
    service_id := some "SVC1" }

/-- C7 (code_bug): on a calendar success `create_appointment` assigns
`state.appointment_id` (with no once-only guard) and `state.service_id`,
then raises while assigning the undeclared field `appointment_date`;
its own `except` catches the error and returns `(False, str(e))`
without ever running `update_status("booked")`.  The resulting state has
a non-null `appointment_id` while its status is still
`"booking_appointment"` — the claim requires `booked` or a later
terminal status whenever `appointment_id` is non-null. -/
theorem C7_appointment_id_without_booked :
    ServiceIntegrator.create_appointment true "evt-1" "APT42XYZ" "SVC1"
        bookingState =
      ((false,
        "ValueError: ConversationState object has no field appointment_date"),
        apptAssigned) ∧
    apptAssigned.appointment_id ≠ none ∧
    apptAssigned.status = "booking_appointment" ∧
    apptAssigned.status ≠ "booked" := by
  exact ⟨rfl, by decide, rfl, by decide⟩

/-- A thread that has been idle: `last_activity` two hours (7200
seconds) before the current turn. -/
def idleState : ConversationState :=
  { janeInitiated with status := "collecting_details", last_activity := 0 }

/-- C9 (code_bug): `follow_up_node` evaluates
`datetime.fromisoformat(state.last_activity)` as its first statement,
but `workflow_nodes.py` never imports `datetime`; every invocation —
in particular on a thread idle for two hours — raises `NameError`
before the one-hour comparison, and the status never becomes
`"stalled"`. -/
theorem C9_follow_up_raises :
    WorkflowNodes.follow_up_node idleState =
      PyResult.raised "NameError: name datetime is not defined" idleState ∧
    (WorkflowNodes.follow_up_node idleState).stateOf.status =
      "collecting_details" := by
  exact ⟨rfl, rfl⟩

/-- A state whose missing-pet list contains an element cannot be
qualified. -/
theorem not_qualified_of_mem_pet (s : ConversationState) (x : String)
    (hx : x ∈ s.get_missing_pet_fields) : s.is_qualified = false := by
  cases h : s.is_qualified
  · rfl
  · exfalso
    have hempty : s.get_missing_pet_fields.length = 0 := by
      have := h
      simp only [ConversationState.is_qualified, Bool.and_eq_true,
        beq_iff_eq] at this
      exact this.2
    rw [List.length_eq_zero] at hempty
    rw [hempty] at hx
    exact (List.not_mem_nil x) hx

/-- A state whose missing-lead list contains an element cannot be
qualified. -/
theorem not_qualified_of_mem_lead (s : ConversationState) (x : String)
    (hx : x ∈ s.get_missing_lead_fields) : s.is_qualified = false := by
  cases h : s.is_qualified
  · rfl
  · exfalso
    have hempty : s.get_missing_lead_fields.length = 0 := by
      have := h
      simp only [ConversationState.is_qualified, Bool.and_eq_true,
        beq_iff_eq] at this
      exact this.1
    rw [List.length_eq_zero] at hempty
    rw [hempty] at hx
    exact (List.not_mem_nil x) hx

/-- C10 (confirmed): the missing-field queries use Python truthiness,
so a required numeric field holding `0`/`0.0` or a required string field
holding `""` is reported missing exactly as if it had never been
populated, and the state is not qualified; in particular a pet recorded
as 0 years old can never qualify. -/
theorem C10_falsy_counts_as_missing (s : ConversationState) :
    (s.weight_kg = some 0 →
      "weight_kg" ∈ s.get_missing_pet_fields ∧ s.is_qualified = false) ∧
    (s.age_years = some 0 →
      "age_years" ∈ s.get_missing_pet_fields ∧ s.is_qualified = false) ∧
    (s.pet_name = some "" →
      "pet_name" ∈ s.get_missing_pet_fields ∧ s.is_qualified = false) ∧
    (s.species = some "" →
      "species" ∈ s.get_missing_pet_fields ∧ s.is_qualified = false) ∧
    (s.breed = some "" →
      "breed" ∈ s.get_missing_pet_fields ∧ s.is_qualified = false) ∧
    (s.customer_name = some "" →
      "customer_name" ∈ s.get_missing_lead_fields ∧
        s.is_qualified = false) ∧
    (s.phone = some "" →
      "phone" ∈ s.get_missing_lead_fields ∧ s.is_qualified = false) ∧
    ConversationState.get_missing_pet_fields
        { s with age_years := some 0 } =
      ConversationState.get_missing_pet_fields
        { s with age_years := none } ∧
    ConversationState.get_missing_pet_fields
        { s with weight_kg := some 0 } =
      ConversationState.get_missing_pet_fields
        { s with weight_kg := none } ∧
    ConversationState.is_qualified { s with age_years := some 0 } =
      ConversationState.is_qualified { s with age_years := none } := by
  refine ⟨?_, ?_, ?_, ?_, ?_, ?_, ?_, rfl, rfl, rfl⟩ <;> intro h
  · have hm : "weight_kg" ∈ s.get_missing_pet_fields := by
      simp [ConversationState.get_missing_pet_fields, h, truthyQ]
    exact ⟨hm, not_qualified_of_mem_pet s _ hm⟩
  · have hm : "age_years" ∈ s.get_missing_pet_fields := by
      simp [ConversationState.get_missing_pet_fields, h, truthyZ]
    exact ⟨hm, not_qualified_of_mem_pet s _ hm⟩
  · have hm : "pet_name" ∈ s.get_missing_pet_fields := by
      simp [ConversationState.get_missing_pet_fields, h, truthyS]
    exact ⟨hm, not_qualified_of_mem_pet s _ hm⟩
  · have hm : "species" ∈ s.get_missing_pet_fields := by
      simp [ConversationState.get_missing_pet_fields, h, truthyS]
    exact ⟨hm, not_qualified_of_mem_pet s _ hm⟩
  · have hm : "breed" ∈ s.get_missing_pet_fields := by
      simp [ConversationState.get_missing_pet_fields, h, truthyS]
    exact ⟨hm, not_qualified_of_mem_pet s _ hm⟩
  · have hm : "customer_name" ∈ s.get_missing_lead_fields := by
      simp [ConversationState.get_missing_lead_fields, h, truthyS]
    exact ⟨hm, not_qualified_of_mem_lead s _ hm⟩
  · have hm : "phone" ∈ s.get_missing_lead_fields := by
      simp [ConversationState.get_missing_lead_fields, h, truthyS]
    exact ⟨hm, not_qualified_of_mem_lead s _ hm⟩

/-- The running example with the pet age recorded as 0 years. -/
def zeroAgeState : ConversationState := { janeFull with age_years := some 0 }

/-- C10 (witness): the truthiness theorem applied to a state whose pet
is recorded as 0 years old. -/
theorem C10_falsy_counts_as_missing_witness :
    "age_years" ∈ zeroAgeState.get_missing_pet_fields ∧
    zeroAgeState.is_qualified = false :=
  (C10_falsy_counts_as_missing zeroAgeState).2.1 rfl

/-- A state with its activity timestamp erased, for comparing states
"up to the activity timestamp". -/
def exceptActivity (s : ConversationState) : ConversationState :=
  { s with last_activity := 0 }

/-- Re-merging the same extracted value changes nothing. -/
theorem mergeField_idem {α : Type} (o n : Option α) :
    mergeField (mergeField o n) n = mergeField o n := by
  cases n <;> rfl

/-- Re-merging the same extraction result changes nothing. -/
theorem mergeExtracted_idem (s : ConversationState) (d : ExtractedData) :
    mergeExtracted (mergeExtracted s d) d = mergeExtracted s d := by
  simp [mergeExtracted, mergeField_idem]

/-- The merge loop commutes with a status update (it touches disjoint
fields). -/
theorem mergeExtracted_update_status (s : ConversationState)
    (d : ExtractedData) (x : String) (n : Nat) :
    mergeExtracted (s.update_status x n) d =
      (mergeExtracted s d).update_status x n := rfl

/-- Qualification only reads the fact fields, so a status update leaves
it unchanged. -/
theorem is_qualified_update_status (s : ConversationState) (x : String)
    (n : Nat) :
    (s.update_status x n).is_qualified = s.is_qualified := rfl

/-- The state `generate_response_node` produces on the mid-booking
example (first invocation). -/
def genOnce : ConversationState :=
  (WorkflowNodes.generate_response_node 300 bookingState).stateOf

/-- The state a second, immediately following invocation of
`generate_response_node` produces. -/
def genTwice : ConversationState :=
  (WorkflowNodes.generate_response_node 400 genOnce).stateOf

/-- C8 (counterexample): `generate_response` is the §4.4 fallback
handler and leaves the status unchanged, so its first output already
satisfies its postcondition; yet a second invocation appends another
copy of the composed reply to `conversation_history` — a field change
beyond the activity timestamp, contradicting the claimed re-invocation
no-op. -/
theorem C8_generate_response_appends :
    genOnce.status = "booking_appointment" ∧
    genTwice.conversation_history.length =
      genOnce.conversation_history.length + 1 ∧
    genTwice ≠ { genOnce with last_activity := genTwice.last_activity } := by
  refine ⟨rfl, rfl, ?_⟩
  intro heq
  have h2 : genTwice.conversation_history.length =
      genOnce.conversation_history.length := by rw [heq]
  have hlen : genTwice.conversation_history.length =
      genOnce.conversation_history.length + 1 := rfl
  rw [h2] at hlen
  exact Nat.succ_ne_self _ hlen.symm

/-- C8 (amended): for the funnel stage handlers — `qualify_lead`,
`collect_details` (against a deterministic extraction result),
`show_services`, `book_appointment` and `follow_up` — invoking the
handler a second time in immediate succession changes no field of the
state besides the activity timestamp; `generate_response` is the
exception, appending the composed reply to the conversation log on
every invocation. -/
theorem C8_second_invocation_noop (n1 n2 : Nat)
    (extraction : Except Unit ExtractedData) (s : ConversationState) :
    exceptActivity
        (WorkflowNodes.qualify_lead_node n2
          (WorkflowNodes.qualify_lead_node n1 s).1).1 =
      exceptActivity (WorkflowNodes.qualify_lead_node n1 s).1 ∧
    exceptActivity
        (WorkflowNodes.collect_details_node extraction n2
          (WorkflowNodes.collect_details_node extraction n1 s).stateOf).stateOf =
      exceptActivity
        (WorkflowNodes.collect_details_node extraction n1 s).stateOf ∧
    exceptActivity
        (WorkflowNodes.show_services_node
          (WorkflowNodes.show_services_node s).stateOf).stateOf =
      exceptActivity (WorkflowNodes.show_services_node s).stateOf ∧
    exceptActivity
        (WorkflowNodes.book_appointment_node n2
          (WorkflowNodes.book_appointment_node n1 s)) =
      exceptActivity (WorkflowNodes.book_appointment_node n1 s) ∧
    exceptActivity
        (WorkflowNodes.follow_up_node
          (WorkflowNodes.follow_up_node s).stateOf).stateOf =
      exceptActivity (WorkflowNodes.follow_up_node s).stateOf := by
  refine ⟨?_, ?_, rfl, rfl, rfl⟩
  · cases hml : s.get_missing_lead_fields <;>
      cases hmp : s.get_missing_pet_fields <;>
      · simp [WorkflowNodes.qualify_lead_node,
          missing_lead_update_status, missing_pet_update_status, hml, hmp]
        try rfl
  · rcases extraction with e | d
    · cases hq : s.is_qualified <;>
        · simp [WorkflowNodes.collect_details_node, PyResult.stateOf,
            is_qualified_update_status, hq]
          try rfl
    · cases hq : (mergeExtracted s d).is_qualified <;>
        · simp [WorkflowNodes.collect_details_node, PyResult.stateOf,
            mergeExtracted_update_status, mergeExtracted_idem,
            is_qualified_update_status, hq]
          try rfl
